import Mathlib

/-!
Shallow embedding of `src/warp_voice.py` (class `WarpVoiceFix`).

The controller is a single-threaded polling loop (`WarpVoiceFix.run`) over a
microphone level signal, with a nested confirmation loop
(`WarpVoiceFix.handle_confirmation`).  We embed one loop iteration
("tick") as a pure step function on an explicit state.  Wall-clock
timestamps and audio levels are inputs supplied by the environment at each
tick, as rationals (the code uses floats only for comparisons against the
fixed decimal constants below, and every comparison relevant here is a
strict or non-strict order comparison, exactly mirrored on `ℚ`).

External effects (window focus, mouse click, key press) are modelled by a
`focusOk` environment bit per tick and an emitted trace of attempted
actuations, each paired with its success bit.
-/

namespace WarpVoice

/-- `self.silence_threshold = 0.012` from `WarpVoiceFix.__init__`. -/
def silence_threshold : ℚ := 0.012

/-- `self.silence_duration = 3.0` from `WarpVoiceFix.__init__`. -/
def silence_duration : ℚ := 3.0

/-- `self.confirmation_silence = 10.0` from `WarpVoiceFix.__init__`. -/
def confirmation_silence : ℚ := 10.0

/-- The three actuation commands passed to `WarpVoiceFix.click_button`:
`"START RECORDING"`, `"STOP RECORDING"`, `"SEND INPUT"`. -/
inductive Action where
  | startRecording
  | stopRecording
  | sendInput
deriving DecidableEq

/-- The mutable fields of `WarpVoiceFix` that the tick loop reads or writes:
`is_recording`, `is_confirming`, `manual_confirm`, `cycle_count`,
`last_sound_time`, `running`. -/
structure St where
  is_recording : Bool
  is_confirming : Bool
  manual_confirm : Bool
  cycle_count : Nat
  last_sound_time : ℚ
  running : Bool
deriving DecidableEq

/-- Initial field values from `WarpVoiceFix.__init__`
(`last_sound_time = time.time()` is the construction timestamp `t0`). -/
def initSt (t0 : ℚ) : St :=
  { is_recording := false, is_confirming := false, manual_confirm := false,
    cycle_count := 0, last_sound_time := t0, running := true }

/-- `WarpVoiceFix.click_button(action)`.  `focus_warp()` is external: its
outcome is the environment bit `focusOk`.  On focus failure the method
returns `False` before any state change; on success it performs the
per-action state updates and returns `True`.  (`cycle_count += 1` happens
only in the `"SEND INPUT"` branch.) -/
def click_button (focusOk : Bool) (a : Action) (s : St) : Bool × St :=
  if focusOk = false then (false, s)
  else match a with
    | .startRecording =>
        (true, { s with is_recording := true, is_confirming := false,
                        manual_confirm := false })
    | .stopRecording =>
        (true, { s with is_recording := false, is_confirming := true,
                        manual_confirm := false })
    | .sendInput =>
        (true, { s with is_recording := false, is_confirming := false,
                        manual_confirm := false,
                        cycle_count := s.cycle_count + 1 })

/-- `WarpVoiceFix.get_audio_level(data)`.  On a decodable frame it returns
the RMS amplitude (the numeric reduction is NumPy; the environment supplies
the resulting level directly as `some level`); on any exception it returns
`0.0`.  A failed sample read is `none`. -/
def get_audio_level : Option ℚ → ℚ
  | some level => level
  | none => 0

/-- Result of one iteration of the `while` body in
`WarpVoiceFix.handle_confirmation`: either the function returns (`ret true`
= confirmed, `ret false` = canceled/resumed) or the loop continues with an
updated `samples_above_threshold` counter. -/
inductive ConfirmOutcome where
  | ret (confirmed : Bool)
  | next (samples : Nat)
deriving DecidableEq

/-- One iteration of the loop body of `WarpVoiceFix.handle_confirmation`
(the `self.running` loop guard is checked by the caller, `step`):
voice counting first (`samples_above_threshold >= 2` after increment fires
`click_button("START RECORDING")` and returns `False`), then
`self.manual_confirm`, then the `elapsed >= self.confirmation_silence`
timeout, each returning `True`. -/
def confirm_tick (level now cstart : ℚ) (samples : Nat) (focusOk : Bool)
    (s : St) : ConfirmOutcome × St × List (Action × Bool) :=
  if level > silence_threshold ∧ 2 ≤ samples + 1 then
    let r := click_button focusOk .startRecording s
    (.ret false, r.2, [(.startRecording, r.1)])
  else
    let samples1 := if level > silence_threshold then samples + 1 else 0
    if s.manual_confirm = true then (.ret true, s, [])
    else if now - cstart ≥ confirmation_silence then (.ret true, s, [])
    else (.next samples1, s, [])

/-- Where control currently sits: the main `run` loop (with its local
`voice_active` edge detector) or suspended inside `handle_confirmation`
(with its locals `samples_above_threshold` and `confirmation_start`). -/
inductive Mode where
  | outer (voice_active : Bool)
  | confirm (samples : Nat) (cstart : ℚ)
deriving DecidableEq

/-- Whole-session state: controller fields plus loop control position. -/
structure Sys where
  st : St
  mode : Mode
deriving DecidableEq

/-- Session state on entering the `run` tick loop. -/
def initSys (t0 : ℚ) : Sys := { st := initSt t0, mode := .outer false }

/-- Environment inputs for one tick: the audio frame (`none` = sample read
failure), the wall-clock reading `time.time()`, whether space / escape key
events were delivered by the `pynput` listener since the previous tick, and
whether `focus_warp()` would succeed on this tick. -/
structure TickIn where
  frame : Option ℚ
  now : ℚ
  keyConfirm : Bool
  keyAbort : Bool
  focusOk : Bool
deriving DecidableEq

/-- `WarpVoiceFix.on_key_press`: space sets `manual_confirm` only while
`is_confirming`; escape clears `running` in any phase. -/
def apply_keys (keyConfirm keyAbort : Bool) (s : St) : St :=
  let s1 := if keyConfirm = true ∧ s.is_confirming = true
            then { s with manual_confirm := true } else s
  if keyAbort = true then { s1 with running := false } else s1

/-- One tick of the session.  Key events latch first (the listener thread
runs asynchronously; we deliver its effect at the tick boundary), then the
loop guard `self.running` is checked, then either the `run` loop body
(lines 198-238) or the suspended `handle_confirmation` body executes.
On `handle_confirmation` returning `True`, the continuation in `run`
(line 233) issues `click_button("SEND INPUT")` within the same tick.
Emits the list of attempted actuations with their success bits. -/
def step (inp : TickIn) (sys : Sys) : Sys × List (Action × Bool) :=
  let s0 := apply_keys inp.keyConfirm inp.keyAbort sys.st
  if s0.running = false then ({ sys with st := s0 }, [])
  else
    let level := get_audio_level inp.frame
    match sys.mode with
    | .outer voice_active =>
      if level > silence_threshold then
        let s1 := { s0 with last_sound_time := inp.now }
        if voice_active = false ∧ s1.is_recording = false ∧
            s1.is_confirming = false then
          let r := click_button inp.focusOk .startRecording s1
          ({ st := r.2, mode := .outer true }, [(.startRecording, r.1)])
        else ({ st := s1, mode := .outer true }, [])
      else
        if s0.is_recording = true ∧
            inp.now - s0.last_sound_time ≥ silence_duration then
          let r := click_button inp.focusOk .stopRecording s0
          if r.1 = true then
            ({ st := r.2, mode := .confirm 0 inp.now }, [(.stopRecording, true)])
          else
            ({ st := r.2, mode := .outer false }, [(.stopRecording, false)])
        else ({ st := s0, mode := .outer false }, [])
    | .confirm samples cstart =>
      match confirm_tick level inp.now cstart samples inp.focusOk s0 with
      | (.ret true, s1, out) =>
          let r := click_button inp.focusOk .sendInput s1
          ({ st := r.2, mode := .outer false }, out ++ [(.sendInput, r.1)])
      | (.ret false, s1, out) => ({ st := s1, mode := .outer false }, out)
      | (.next k, s1, out) => ({ st := s1, mode := .confirm k cstart }, out)

/-- Run the session over a finite list of tick inputs, concatenating the
actuation traces. -/
def run_ticks : List TickIn → Sys → Sys × List (Action × Bool)
  | [], sys => (sys, [])
  | inp :: rest, sys =>
    let r1 := step inp sys
    let r2 := run_ticks rest r1.1
    (r2.1, r1.2 ++ r2.2)

/-- Startup outcome of the process (`__init__` then the preamble of `run`,
lines 171-190): `load_button_position` calls `exit(1)` on any config error;
then `run` returns early if the initial `focus_warp()` fails; then it
returns early if `self.audio.open` raises; otherwise the tick loop is
entered. -/
inductive StartupResult where
  | configError
  | focusFailed
  | audioFailed
  | loopEntered
deriving DecidableEq

/-- Startup control flow as a function of which external preconditions hold:
config file loadable, initial window focus succeeds, audio device opens. -/
def startup (configOk focus0 audioOk : Bool) : StartupResult :=
  if configOk = false then .configError
  else if focus0 = false then .focusFailed
  else if audioOk = false then .audioFailed
  else .loopEntered

/-- Process exit status for each startup outcome: `exit(1)` only in
`load_button_position`; every other path falls off `run` (or finishes the
loop) and the script ends normally with status 0. -/
def exit_code : StartupResult → Nat
  | .configError => 1
  | _ => 0

/-- Whether `self.audio.open` succeeded (the stream exists) on this path. -/
def audio_opened : StartupResult → Bool
  | .loopEntered => true
  | _ => false

/-- Whether the tick loop (`while self.running`) is entered on this path. -/
def loop_entered : StartupResult → Bool
  | .loopEntered => true
  | _ => false

end WarpVoice

namespace WarpVoice

/-- Unfolding set used to evaluate the embedding on concrete inputs. -/
theorem apply_keys_none (s : St) : apply_keys false false s = s := by
  simp [apply_keys]

/-- C1 counterexample: from the initial Waiting state (`is_recording = false`,
`is_confirming = false`), a SINGLE tick with level `0.02 > 0.012` already
issues the start-capture actuation and enters Recording, contradicting the
claimed ≥2-consecutive-tick hysteresis for Waiting→Recording. -/
theorem C1_counterexample :
    (initSys 0).st.is_recording = false ∧ (initSys 0).st.is_confirming = false ∧
    (step ⟨some 0.02, 1, false, false, true⟩ (initSys 0)).1.st.is_recording = true ∧
    (step ⟨some 0.02, 1, false, false, true⟩ (initSys 0)).2 =
      [(.startRecording, true)] := by
  norm_num [step, apply_keys, get_audio_level, initSys, initSt, silence_threshold,
    click_button]

/-- C1 (amended): in the main `run` loop, a single tick with level strictly
above `silence_threshold` from the Waiting state (not recording, not
confirming, edge detector `voice_active` clear) immediately triggers the
Waiting→Recording transition with one start-capture actuation; no
2-consecutive-tick hysteresis exists in the Waiting phase (the
`samples_above_threshold >= 2` rule applies only inside
`handle_confirmation`). -/
theorem C1_single_tick_starts_recording (sys : Sys) (inp : TickIn)
    (hmode : sys.mode = .outer false)
    (hrec : sys.st.is_recording = false) (hcon : sys.st.is_confirming = false)
    (hrun : sys.st.running = true) (habort : inp.keyAbort = false)
    (hlvl : get_audio_level inp.frame > silence_threshold)
    (hfocus : inp.focusOk = true) :
    (step inp sys).1.st.is_recording = true ∧
    (step inp sys).2 = [(.startRecording, true)] ∧
    (step inp sys).1.mode = .outer true := by
  obtain ⟨⟨rec, conf, man, cyc, last, run⟩, mode⟩ := sys
  simp only [St.is_recording, St.is_confirming, St.running] at hrec hcon hrun
  subst hmode hrec hcon hrun
  simp [step, apply_keys, habort, hlvl, hfocus, click_button]

/-- C1 witness: the amended theorem applied at a concrete Waiting state and
a concrete tick with level `0.5 > 0.012`. -/
theorem C1_witness :
    (step ⟨some 0.5, 7, false, false, true⟩
        ⟨⟨false, false, false, 3, 2, true⟩, .outer false⟩).1.st.is_recording = true ∧
    (step ⟨some 0.5, 7, false, false, true⟩
        ⟨⟨false, false, false, 3, 2, true⟩, .outer false⟩).2 =
      [(.startRecording, true)] ∧
    (step ⟨some 0.5, 7, false, false, true⟩
        ⟨⟨false, false, false, 3, 2, true⟩, .outer false⟩).1.mode = .outer true :=
  C1_single_tick_starts_recording _ _ rfl rfl rfl rfl rfl
    (by norm_num [get_audio_level, silence_threshold]) rfl

end WarpVoice

namespace WarpVoice

/-- Key latching never touches `cycle_count`. -/
theorem apply_keys_cycle (kc ka : Bool) (s : St) :
    (apply_keys kc ka s).cycle_count = s.cycle_count := by
  simp only [apply_keys]
  split <;> split <;> rfl

/-- Key latching never touches `is_recording`. -/
theorem apply_keys_rec (kc ka : Bool) (s : St) :
    (apply_keys kc ka s).is_recording = s.is_recording := by
  simp only [apply_keys]
  split <;> split <;> rfl

/-- Key latching never touches `is_confirming`. -/
theorem apply_keys_conf (kc ka : Bool) (s : St) :
    (apply_keys kc ka s).is_confirming = s.is_confirming := by
  simp only [apply_keys]
  split <;> split <;> rfl

/-- Key latching never touches `last_sound_time`. -/
theorem apply_keys_last (kc ka : Bool) (s : St) :
    (apply_keys kc ka s).last_sound_time = s.last_sound_time := by
  simp only [apply_keys]
  split <;> split <;> rfl

/-- C2: in the Confirming phase (inside `handle_confirmation`), the tick
conditions are evaluated with precedence abort > voice-resumes-recording >
manual-confirm > timeout: (1) if `running` is false after key latching the
tick does nothing (no actuation, no cycle change); (2) otherwise a
qualifying voice tick (level above threshold, second consecutive sample)
attempts only start-capture — no submission; (3) otherwise a latched manual
confirm fires exactly one submit actuation and one `cycle_count` increment,
even when the `confirmation_silence` timeout condition is true on the same
tick (no double-fire); (4) otherwise the elapsed timeout alone fires the
single submit attempt. -/
theorem C2_confirm_precedence (sys : Sys) (inp : TickIn) (k : Nat) (c : ℚ)
    (hmode : sys.mode = .confirm k c) :
    ((apply_keys inp.keyConfirm inp.keyAbort sys.st).running = false →
        (step inp sys).2 = [] ∧
        (step inp sys).1.st.cycle_count = sys.st.cycle_count) ∧
    ((apply_keys inp.keyConfirm inp.keyAbort sys.st).running = true →
      get_audio_level inp.frame > silence_threshold → 2 ≤ k + 1 →
        (step inp sys).2 = [(.startRecording, inp.focusOk)] ∧
        (step inp sys).1.st.cycle_count = sys.st.cycle_count) ∧
    ((apply_keys inp.keyConfirm inp.keyAbort sys.st).running = true →
      ¬(get_audio_level inp.frame > silence_threshold ∧ 2 ≤ k + 1) →
      (apply_keys inp.keyConfirm inp.keyAbort sys.st).manual_confirm = true →
      inp.now - c ≥ confirmation_silence →
      inp.focusOk = true →
        (step inp sys).2 = [(.sendInput, true)] ∧
        (step inp sys).1.st.cycle_count = sys.st.cycle_count + 1 ∧
        (step inp sys).1.st.is_confirming = false ∧
        (step inp sys).1.mode = .outer false) ∧
    ((apply_keys inp.keyConfirm inp.keyAbort sys.st).running = true →
      ¬(get_audio_level inp.frame > silence_threshold ∧ 2 ≤ k + 1) →
      (apply_keys inp.keyConfirm inp.keyAbort sys.st).manual_confirm = false →
      inp.now - c ≥ confirmation_silence →
        (step inp sys).2 = [(.sendInput, inp.focusOk)]) := by
  obtain ⟨st, mode⟩ := sys
  subst hmode
  refine ⟨?_, ?_, ?_, ?_⟩
  · intro hrun
    simp [step, hrun, apply_keys_cycle]
  · intro hrun hlvl hk
    have hk1 : 1 ≤ k := by omega
    cases hf : inp.focusOk <;>
      simp [step, hrun, confirm_tick, hlvl, hk1, click_button, hf, apply_keys_cycle]
  · intro hrun hnv hman htime hfocus
    have hnv1 : ¬(silence_threshold < get_audio_level inp.frame ∧ 1 ≤ k) := by
      simpa [Nat.succ_le_succ_iff] using hnv
    simp [step, hrun, confirm_tick, hnv1, hman, htime, hfocus, click_button,
      apply_keys_cycle]
  · intro hrun hnv hman htime
    have hnv1 : ¬(silence_threshold < get_audio_level inp.frame ∧ 1 ≤ k) := by
      simpa [Nat.succ_le_succ_iff] using hnv
    cases hf : inp.focusOk <;>
      simp [step, hrun, confirm_tick, hnv1, hman, htime, click_button, hf]

/-- C2 witness: a concrete Confirming state with the manual-confirm flag
latched and the timeout already elapsed (`12 - 0 ≥ 10`) on the same tick:
exactly one submit actuation, one increment. -/
theorem C2_witness :
    (step ⟨some 0, 12, false, false, true⟩
        ⟨⟨false, true, true, 5, 0, true⟩, .confirm 0 0⟩).2 = [(.sendInput, true)] ∧
    (step ⟨some 0, 12, false, false, true⟩
        ⟨⟨false, true, true, 5, 0, true⟩, .confirm 0 0⟩).1.st.cycle_count = 5 + 1 ∧
    (step ⟨some 0, 12, false, false, true⟩
        ⟨⟨false, true, true, 5, 0, true⟩, .confirm 0 0⟩).1.st.is_confirming = false ∧
    (step ⟨some 0, 12, false, false, true⟩
        ⟨⟨false, true, true, 5, 0, true⟩, .confirm 0 0⟩).1.mode = .outer false :=
  (C2_confirm_precedence _ _ 0 0 rfl).2.2.1 rfl
    (by norm_num [get_audio_level, silence_threshold]) rfl
    (by norm_num [confirmation_silence]) rfl

end WarpVoice

namespace WarpVoice

/-- C3: while Recording in the main loop, a tick with level strictly above
`silence_threshold` resets `last_sound_time` to the tick's clock reading and
issues no actuation; and (with window focus available) the
Recording→Confirming transition — the stop-capture actuation — fires on a
tick precisely when the level is not above threshold and
`now - last_sound_time ≥ silence_duration` (3.0 s), stated as an iff both
for the mode change and for the emitted actuation. -/
theorem C3_silence_stops_recording (sys : Sys) (inp : TickIn) (va : Bool)
    (hmode : sys.mode = .outer va) (hrun : sys.st.running = true)
    (hrec : sys.st.is_recording = true) (hcon : sys.st.is_confirming = false)
    (habort : inp.keyAbort = false) (hfocus : inp.focusOk = true) :
    (get_audio_level inp.frame > silence_threshold →
        (step inp sys).1.st.last_sound_time = inp.now ∧
        (step inp sys).2 = [] ∧
        (step inp sys).1.st.is_recording = true ∧
        (step inp sys).1.mode = .outer true) ∧
    ((step inp sys).1.mode = .confirm 0 inp.now ↔
        (¬ get_audio_level inp.frame > silence_threshold ∧
          inp.now - sys.st.last_sound_time ≥ silence_duration)) ∧
    ((step inp sys).2 = [(.stopRecording, true)] ↔
        (¬ get_audio_level inp.frame > silence_threshold ∧
          inp.now - sys.st.last_sound_time ≥ silence_duration)) := by
  obtain ⟨⟨rec, conf, man, cyc, last, run⟩, mode⟩ := sys
  simp only [St.is_recording, St.is_confirming, St.running,
    St.last_sound_time] at hrec hcon hrun ⊢
  subst hmode hrec hcon hrun
  refine ⟨?_, ?_, ?_⟩
  · intro hlvl
    simp [step, apply_keys, habort, hlvl]
  · by_cases hlvl : get_audio_level inp.frame > silence_threshold
    · simp [step, apply_keys, habort, hlvl]
    · by_cases hsil : inp.now - last ≥ silence_duration
      · simp [step, apply_keys, habort, hlvl, hsil, hfocus, click_button]
      · simp [step, apply_keys, habort, hlvl, hsil]
  · by_cases hlvl : get_audio_level inp.frame > silence_threshold
    · simp [step, apply_keys, habort, hlvl]
    · by_cases hsil : inp.now - last ≥ silence_duration
      · simp [step, apply_keys, habort, hlvl, hsil, hfocus, click_button]
      · simp [step, apply_keys, habort, hlvl, hsil]

/-- C3 witness: a concrete Recording state with `last_sound_time = 10`; a
silent tick at time 13 satisfies `13 - 10 ≥ 3` and the theorem yields the
stop-capture transition into Confirming. -/
theorem C3_witness :
    (step ⟨some 0, 13, false, false, true⟩
        ⟨⟨true, false, false, 2, 10, true⟩, .outer false⟩).1.mode = .confirm 0 13 ∧
    (step ⟨some 0, 13, false, false, true⟩
        ⟨⟨true, false, false, 2, 10, true⟩, .outer false⟩).2 =
      [(.stopRecording, true)] :=
  ⟨((C3_silence_stops_recording ⟨⟨true, false, false, 2, 10, true⟩, .outer false⟩
      ⟨some 0, 13, false, false, true⟩ false rfl rfl rfl rfl rfl rfl).2.1).2
      ⟨by norm_num [get_audio_level, silence_threshold],
        by norm_num [silence_duration]⟩,
    ((C3_silence_stops_recording ⟨⟨true, false, false, 2, 10, true⟩, .outer false⟩
      ⟨some 0, 13, false, false, true⟩ false rfl rfl rfl rfl rfl rfl).2.2).2
      ⟨by norm_num [get_audio_level, silence_threshold],
        by norm_num [silence_duration]⟩⟩

end WarpVoice

namespace WarpVoice

/-- Start and stop clicks never touch `cycle_count`. -/
theorem click_button_start_cycle (f : Bool) (s : St) :
    (click_button f .startRecording s).2.cycle_count = s.cycle_count := by
  cases f <;> simp [click_button]

/-- Stop clicks never touch `cycle_count`. -/
theorem click_button_stop_cycle (f : Bool) (s : St) :
    (click_button f .stopRecording s).2.cycle_count = s.cycle_count := by
  cases f <;> simp [click_button]

/-- Per-tick dichotomy for `cycle_count`: each tick either leaves it
unchanged and performs no successful submit, or increments it by exactly
one while emitting one successful submit actuation out of the Confirming
mode into the waiting main loop. -/
theorem step_cycle (inp : TickIn) (sys : Sys) :
    ((step inp sys).1.st.cycle_count = sys.st.cycle_count ∧
      (Action.sendInput, true) ∉ (step inp sys).2) ∨
    ((step inp sys).1.st.cycle_count = sys.st.cycle_count + 1 ∧
      (step inp sys).2 = [(.sendInput, true)] ∧
      (∃ k c, sys.mode = .confirm k c) ∧
      (step inp sys).1.st.is_confirming = false ∧
      (step inp sys).1.mode = .outer false) := by
  obtain ⟨st, mode⟩ := sys
  by_cases hrun : (apply_keys inp.keyConfirm inp.keyAbort st).running = false
  · left
    simp [step, hrun, apply_keys_cycle]
  · rw [Bool.not_eq_false] at hrun
    cases mode with
    | outer va =>
      left
      simp only [step, hrun]
      split_ifs <;>
        simp_all [click_button_start_cycle, click_button_stop_cycle,
          apply_keys_cycle]
    | confirm k c =>
      by_cases hvoice : get_audio_level inp.frame > silence_threshold ∧ 1 ≤ k
      · left
        cases hf : inp.focusOk <;>
          simp [step, hrun, confirm_tick, hvoice, click_button, hf, apply_keys_cycle]
      · by_cases hman : (apply_keys inp.keyConfirm inp.keyAbort st).manual_confirm = true
        · cases hf : inp.focusOk
          · left
            simp [step, hrun, confirm_tick, hvoice, hman, click_button, hf,
              apply_keys_cycle]
          · right
            simp [step, hrun, confirm_tick, hvoice, hman, click_button, hf,
              apply_keys_cycle]
        · rw [Bool.not_eq_true] at hman
          by_cases htime : inp.now - c ≥ confirmation_silence
          · cases hf : inp.focusOk
            · left
              simp [step, hrun, confirm_tick, hvoice, hman, htime, click_button,
                hf, apply_keys_cycle]
            · right
              simp [step, hrun, confirm_tick, hvoice, hman, htime, click_button,
                hf, apply_keys_cycle]
          · left
            simp [step, hrun, confirm_tick, hvoice, hman, htime, apply_keys_cycle]

/-- Over any input list, `cycle_count` never decreases. -/
theorem run_ticks_cycle_mono (l : List TickIn) (sys : Sys) :
    sys.st.cycle_count ≤ (run_ticks l sys).1.st.cycle_count := by
  induction l generalizing sys with
  | nil => simp [run_ticks]
  | cons inp rest ih =>
    have h := step_cycle inp sys
    have hle : sys.st.cycle_count ≤ (step inp sys).1.st.cycle_count := by
      rcases h with ⟨h1, _⟩ | ⟨h1, _⟩ <;> omega
    calc sys.st.cycle_count ≤ (step inp sys).1.st.cycle_count := hle
      _ ≤ (run_ticks rest (step inp sys).1).1.st.cycle_count := ih _
      _ = (run_ticks (inp :: rest) sys).1.st.cycle_count := by
          simp [run_ticks]

/-- C4: `cycle_count` starts at 0; each tick either leaves it unchanged
with no successful submit actuation, or increments it by exactly 1 while
emitting the single successful submit actuation of a
Confirming→Submitted→Waiting transition (the tick starts in Confirming mode
and ends in the main waiting loop with `is_confirming` cleared, so a second
increment within the same Confirming phase is impossible); and over any
sequence of ticks `cycle_count` never decreases. -/
theorem C4_cycle_count_invariant (t0 : ℚ) (inp : TickIn) (sys : Sys)
    (l : List TickIn) :
    (initSys t0).st.cycle_count = 0 ∧
    (((step inp sys).1.st.cycle_count = sys.st.cycle_count ∧
        (Action.sendInput, true) ∉ (step inp sys).2) ∨
      ((step inp sys).1.st.cycle_count = sys.st.cycle_count + 1 ∧
        (step inp sys).2 = [(.sendInput, true)] ∧
        (∃ k c, sys.mode = .confirm k c) ∧
        (step inp sys).1.st.is_confirming = false ∧
        (step inp sys).1.mode = .outer false)) ∧
    sys.st.cycle_count ≤ (run_ticks l sys).1.st.cycle_count :=
  ⟨rfl, step_cycle inp sys, run_ticks_cycle_mono l sys⟩

end WarpVoice

namespace WarpVoice

/-- C5: from a Confirming state with a clear sample counter, two consecutive
ticks with level strictly above `silence_threshold`, both occurring before a
manual confirm (flag clear, no key) and with the first before the
`confirmation_silence` timeout, transition to Recording with one
start-capture actuation on the second tick: `manual_confirm` stays cleared,
no submit actuation is attempted and `cycle_count` is unchanged for that
confirmation window. -/
theorem C5_voice_resumes_recording (sys : Sys) (inp1 inp2 : TickIn) (c : ℚ)
    (hmode : sys.mode = .confirm 0 c) (hrun : sys.st.running = true)
    (hman : sys.st.manual_confirm = false)
    (hk1 : inp1.keyConfirm = false) (ha1 : inp1.keyAbort = false)
    (hk2 : inp2.keyConfirm = false) (ha2 : inp2.keyAbort = false)
    (hl1 : get_audio_level inp1.frame > silence_threshold)
    (hl2 : get_audio_level inp2.frame > silence_threshold)
    (ht1 : ¬ inp1.now - c ≥ confirmation_silence)
    (hf2 : inp2.focusOk = true) :
    (step inp1 sys).2 = [] ∧
    (step inp1 sys).1 = ⟨sys.st, .confirm 1 c⟩ ∧
    (step inp2 (step inp1 sys).1).2 = [(.startRecording, true)] ∧
    (step inp2 (step inp1 sys).1).1.st.is_recording = true ∧
    (step inp2 (step inp1 sys).1).1.st.is_confirming = false ∧
    (step inp2 (step inp1 sys).1).1.st.manual_confirm = false ∧
    (step inp2 (step inp1 sys).1).1.st.cycle_count = sys.st.cycle_count ∧
    (step inp2 (step inp1 sys).1).1.mode = .outer false := by
  obtain ⟨⟨rec, conf, man, cyc, last, run⟩, mode⟩ := sys
  simp only [St.manual_confirm, St.running] at hman hrun
  subst hmode hman hrun
  have h1 : step inp1 ⟨⟨rec, conf, false, cyc, last, true⟩, .confirm 0 c⟩ =
      (⟨⟨rec, conf, false, cyc, last, true⟩, .confirm 1 c⟩, []) := by
    simp [step, apply_keys, hk1, ha1, confirm_tick, hl1, ht1]
  rw [h1]
  simp [step, apply_keys, hk2, ha2, confirm_tick, hl2, click_button, hf2]

/-- C5 witness: concrete Confirming state entered at time 0; above-threshold
samples at times 1 and 2 resume recording without any submission. -/
theorem C5_witness :
    (step ⟨some 0.5, 1, false, false, true⟩
        ⟨⟨false, true, false, 4, 0, true⟩, .confirm 0 0⟩).2 = [] ∧
    (step ⟨some 0.5, 1, false, false, true⟩
        ⟨⟨false, true, false, 4, 0, true⟩, .confirm 0 0⟩).1 =
      ⟨⟨false, true, false, 4, 0, true⟩, .confirm 1 0⟩ ∧
    (step ⟨some 0.5, 2, false, false, true⟩
        (step ⟨some 0.5, 1, false, false, true⟩
          ⟨⟨false, true, false, 4, 0, true⟩, .confirm 0 0⟩).1).2 =
      [(.startRecording, true)] ∧
    (step ⟨some 0.5, 2, false, false, true⟩
        (step ⟨some 0.5, 1, false, false, true⟩
          ⟨⟨false, true, false, 4, 0, true⟩, .confirm 0 0⟩).1).1.st.is_recording =
      true ∧
    (step ⟨some 0.5, 2, false, false, true⟩
        (step ⟨some 0.5, 1, false, false, true⟩
          ⟨⟨false, true, false, 4, 0, true⟩, .confirm 0 0⟩).1).1.st.is_confirming =
      false ∧
    (step ⟨some 0.5, 2, false, false, true⟩
        (step ⟨some 0.5, 1, false, false, true⟩
          ⟨⟨false, true, false, 4, 0, true⟩, .confirm 0 0⟩).1).1.st.manual_confirm =
      false ∧
    (step ⟨some 0.5, 2, false, false, true⟩
        (step ⟨some 0.5, 1, false, false, true⟩
          ⟨⟨false, true, false, 4, 0, true⟩, .confirm 0 0⟩).1).1.st.cycle_count = 4 ∧
    (step ⟨some 0.5, 2, false, false, true⟩
        (step ⟨some 0.5, 1, false, false, true⟩
          ⟨⟨false, true, false, 4, 0, true⟩, .confirm 0 0⟩).1).1.mode = .outer false :=
  C5_voice_resumes_recording ⟨⟨false, true, false, 4, 0, true⟩, .confirm 0 0⟩
    ⟨some 0.5, 1, false, false, true⟩ ⟨some 0.5, 2, false, false, true⟩ 0
    rfl rfl rfl rfl rfl rfl rfl
    (by norm_num [get_audio_level, silence_threshold])
    (by norm_num [get_audio_level, silence_threshold])
    (by norm_num [confirmation_silence]) rfl

end WarpVoice

namespace WarpVoice

/-- C6: for every actuation request, when the window-focus precondition
fails, `click_button` returns `False` having changed nothing: in particular
`is_recording`, `is_confirming`, `manual_confirm` and `cycle_count` are all
exactly as before, so the phase does not advance on that call. -/
theorem C6_focus_failure_no_state_change (a : Action) (s : St) :
    click_button false a s = (false, s) := by
  simp [click_button]

end WarpVoice

namespace WarpVoice

/-- C7 counterexample: concrete trace. Tick 1 (level `0.02`, `t=0`) starts
recording; tick 2 (silence, `t=3`) stops into Confirming; tick 3 (`t=4`,
space pressed, focus FAILS) resolves the confirmation manually but the
submit actuation is abandoned, leaving `is_confirming = true`,
`manual_confirm = true` outside the confirmation loop.  Tick 4 (`t=5`,
focus available again, the manual-confirm flag still latched and the
timeout long elapsed — the transition's qualifying conditions hold) issues
NO actuation at all: the trace shows exactly one submit attempt and
`cycle_count` stays 0, refuting "retried on the next tick at which the
transition's qualifying conditions hold again". -/
theorem C7_counterexample :
    (run_ticks [⟨some 0.02, 0, false, false, true⟩, ⟨some 0, 3, false, false, true⟩,
        ⟨some 0, 4, true, false, false⟩, ⟨some 0, 5, false, false, true⟩]
        (initSys 0)).2 =
      [(.startRecording, true), (.stopRecording, true), (.sendInput, false)] ∧
    (run_ticks [⟨some 0.02, 0, false, false, true⟩, ⟨some 0, 3, false, false, true⟩,
        ⟨some 0, 4, true, false, false⟩, ⟨some 0, 5, false, false, true⟩]
        (initSys 0)).1.st.cycle_count = 0 ∧
    (run_ticks [⟨some 0.02, 0, false, false, true⟩, ⟨some 0, 3, false, false, true⟩,
        ⟨some 0, 4, true, false, false⟩, ⟨some 0, 5, false, false, true⟩]
        (initSys 0)).1.st.manual_confirm = true ∧
    (run_ticks [⟨some 0.02, 0, false, false, true⟩, ⟨some 0, 3, false, false, true⟩,
        ⟨some 0, 4, true, false, false⟩, ⟨some 0, 5, false, false, true⟩]
        (initSys 0)).1.st.is_confirming = true := by
  norm_num [run_ticks, step, apply_keys, get_audio_level, initSys, initSt,
    silence_threshold, silence_duration, confirmation_silence, click_button,
    confirm_tick]

/-- A tick from the dead configuration (main loop, `is_confirming = true`,
`is_recording = false`) emits nothing and stays in that configuration. -/
theorem stuck_step (inp : TickIn) (sys : Sys) (va : Bool)
    (hmode : sys.mode = .outer va) (hconf : sys.st.is_confirming = true)
    (hrec : sys.st.is_recording = false) :
    (step inp sys).2 = [] ∧
    (∃ vb, (step inp sys).1.mode = .outer vb) ∧
    (step inp sys).1.st.is_confirming = true ∧
    (step inp sys).1.st.is_recording = false := by
  obtain ⟨⟨rec, conf, man, cyc, last, run⟩, mode⟩ := sys
  simp only [St.is_confirming, St.is_recording] at hconf hrec
  subst hmode hconf hrec
  by_cases hrun :
      (apply_keys inp.keyConfirm inp.keyAbort ⟨false, true, man, cyc, last, run⟩).running = false
  · simp [step, hrun, apply_keys_conf, apply_keys_rec]
  · rw [Bool.not_eq_false] at hrun
    by_cases hlvl : get_audio_level inp.frame > silence_threshold
    · simp [step, hrun, hlvl, apply_keys_conf, apply_keys_rec]
    · simp [step, hrun, hlvl, apply_keys_conf, apply_keys_rec]

/-- From the dead configuration, no actuation is ever emitted again over any
input sequence. -/
theorem run_ticks_stuck (l : List TickIn) (sys : Sys) (va : Bool)
    (hmode : sys.mode = .outer va) (hconf : sys.st.is_confirming = true)
    (hrec : sys.st.is_recording = false) :
    (run_ticks l sys).2 = [] := by
  induction l generalizing sys va with
  | nil => simp [run_ticks]
  | cons inp rest ih =>
    obtain ⟨hout, ⟨vb, hmode1⟩, hconf1, hrec1⟩ := stuck_step inp sys va hmode hconf hrec
    simp only [run_ticks, hout, List.nil_append]
    exact ih (step inp sys).1 vb hmode1 hconf1 hrec1

/-- C7 (amended): only the stop-capture actuation is retried after a focus
failure — while Recording, a failed stop attempt leaves the state intact so
the next silent tick (at a no-earlier clock reading) attempts stop again.
But an abandoned submit (or an abandoned start-capture resume during
confirmation) leaves the session in the dead configuration `is_confirming =
true`, `is_recording = false` in the main loop, from which NO actuation of
any kind — in particular no retry of the pending one — is ever issued again
over any subsequent input sequence. -/
theorem C7_stop_retried_submit_not (sys : Sys) (inp1 inp2 : TickIn) (va : Bool)
    (hmode : sys.mode = .outer va) (hrun : sys.st.running = true)
    (hrec : sys.st.is_recording = true) (hcon : sys.st.is_confirming = false)
    (ha1 : inp1.keyAbort = false) (ha2 : inp2.keyAbort = false)
    (hl1 : ¬ get_audio_level inp1.frame > silence_threshold)
    (hl2 : ¬ get_audio_level inp2.frame > silence_threshold)
    (hsil : inp1.now - sys.st.last_sound_time ≥ silence_duration)
    (hf1 : inp1.focusOk = false)
    (hlater : inp2.now ≥ inp1.now) :
    ((step inp1 sys).2 = [(.stopRecording, false)] ∧
      (step inp2 (step inp1 sys).1).2 = [(.stopRecording, inp2.focusOk)]) ∧
    (∀ (sys2 : Sys) (vb : Bool) (l : List TickIn), sys2.mode = .outer vb →
      sys2.st.is_confirming = true → sys2.st.is_recording = false →
      (run_ticks l sys2).2 = []) := by
  constructor
  · obtain ⟨⟨rec, conf, man, cyc, last, run⟩, mode⟩ := sys
    simp only [St.is_recording, St.is_confirming, St.running,
      St.last_sound_time] at hrec hcon hrun hsil
    subst hmode hrec hcon hrun
    have h1 : step inp1 ⟨⟨true, false, man, cyc, last, true⟩, .outer va⟩ =
        (⟨⟨true, false, man, cyc, last, true⟩, .outer false⟩,
          [(.stopRecording, false)]) := by
      simp [step, apply_keys, ha1, hl1, hsil, click_button, hf1]
    rw [h1]
    have hsil2 : inp2.now - last ≥ silence_duration := by
      have : inp1.now - last ≤ inp2.now - last := by linarith
      linarith
    cases hf2 : inp2.focusOk <;>
      simp [step, apply_keys, ha2, hl2, hsil2, click_button, hf2]
  · intro sys2 vb l hmode2 hconf2 hrec2
    exact run_ticks_stuck l sys2 vb hmode2 hconf2 hrec2

/-- C7 witness: both parts of the amended theorem at concrete inputs — a
failed stop at `t=3` is retried successfully at `t=4`; and from a concrete
dead configuration one above-threshold tick with focus available still
emits nothing. -/
theorem C7_witness :
    ((step ⟨some 0, 3, false, false, false⟩
        ⟨⟨true, false, false, 0, 0, true⟩, .outer false⟩).2 =
      [(.stopRecording, false)] ∧
    (step ⟨some 0, 4, false, false, true⟩
        (step ⟨some 0, 3, false, false, false⟩
          ⟨⟨true, false, false, 0, 0, true⟩, .outer false⟩).1).2 =
      [(.stopRecording, true)]) ∧
    (run_ticks [⟨some 0.5, 1, false, false, true⟩]
        ⟨⟨false, true, true, 0, 0, true⟩, .outer false⟩).2 = [] := by
  have h := C7_stop_retried_submit_not
    ⟨⟨true, false, false, 0, 0, true⟩, .outer false⟩
    ⟨some 0, 3, false, false, false⟩ ⟨some 0, 4, false, false, true⟩ false
    rfl rfl rfl rfl rfl rfl
    (by norm_num [get_audio_level, silence_threshold])
    (by norm_num [get_audio_level, silence_threshold])
    (by norm_num [silence_duration]) rfl (by norm_num)
  exact ⟨h.1, h.2 ⟨⟨false, true, true, 0, 0, true⟩, .outer false⟩ false
    [⟨some 0.5, 1, false, false, true⟩] rfl rfl rfl⟩

end WarpVoice

namespace WarpVoice

/-- Without an abort key, key latching preserves `running`. -/
theorem apply_keys_running_no_abort (kc : Bool) (s : St) :
    (apply_keys kc false s).running = s.running := by
  simp only [apply_keys]
  split <;> split <;> simp_all

/-- Without an abort key, no tick ever clears `running`. -/
theorem step_running (inp : TickIn) (sys : Sys) (ha : inp.keyAbort = false) :
    (step inp sys).1.st.running = sys.st.running := by
  obtain ⟨st, mode⟩ := sys
  have hkr : (apply_keys inp.keyConfirm inp.keyAbort st).running = st.running := by
    rw [ha]
    exact apply_keys_running_no_abort _ _
  by_cases hrun : (apply_keys inp.keyConfirm inp.keyAbort st).running = false
  · have hsr : st.running = false := by rw [← hkr]; exact hrun
    simp [step, hrun, hsr]
  · rw [Bool.not_eq_false] at hrun
    cases mode with
    | outer va =>
      simp only [step, hrun]
      split_ifs <;> cases hf : inp.focusOk <;> simp_all [click_button]
    | confirm k c =>
      simp only [step, hrun, confirm_tick]
      split_ifs <;> cases hf : inp.focusOk <;> simp_all [click_button]

/-- A tick whose level is not above threshold never attempts start-capture. -/
theorem step_no_start_on_silence (inp : TickIn) (sys : Sys) (b : Bool)
    (hlvl : ¬ get_audio_level inp.frame > silence_threshold) :
    (Action.startRecording, b) ∉ (step inp sys).2 := by
  obtain ⟨st, mode⟩ := sys
  by_cases hrun : (apply_keys inp.keyConfirm inp.keyAbort st).running = false
  · simp [step, hrun]
  · rw [Bool.not_eq_false] at hrun
    cases mode with
    | outer va =>
      simp only [step, hrun]
      split_ifs <;> simp_all [click_button]
    | confirm k c =>
      simp only [step, hrun, confirm_tick]
      split_ifs <;> simp_all [click_button]

/-- C8 counterexample: three consecutive sampling failures from the initial
state leave the session exactly in its initial state with an empty actuation
trace, and the whole run (final state AND outputs) is indistinguishable from
a run on three ordinary silent frames: no state field or emitted event
records the failures, so no degraded-audio condition is, or can be,
surfaced — refuting the claim's "three or more consecutive sampling failures
are surfaced as a visible degraded-audio status condition". -/
theorem C8_counterexample :
    run_ticks [⟨none, 1, false, false, true⟩, ⟨none, 2, false, false, true⟩,
        ⟨none, 3, false, false, true⟩] (initSys 0) = (initSys 0, []) ∧
    run_ticks [⟨none, 1, false, false, true⟩, ⟨none, 2, false, false, true⟩,
        ⟨none, 3, false, false, true⟩] (initSys 0) =
      run_ticks [⟨some 0, 1, false, false, true⟩, ⟨some 0, 2, false, false, true⟩,
        ⟨some 0, 3, false, false, true⟩] (initSys 0) := by
  norm_num [run_ticks, step, apply_keys, get_audio_level, initSys, initSt,
    silence_threshold, silence_duration, confirmation_silence, click_button,
    confirm_tick]

/-- C8 (amended): a sampling failure yields level 0 (treated as silence) for
that tick — indeed the failure tick's full result (state and actuations)
equals that of an ordinary silent frame — it never clears `running` (absent
an abort key) and never attempts a start-capture actuation; but consecutive
failures are not counted anywhere and no degraded-audio condition is
surfaced, precisely because failure ticks are observationally identical to
silent ticks. -/
theorem C8_failure_is_silence (inp : TickIn) (sys : Sys)
    (hfail : inp.frame = none) :
    get_audio_level none = 0 ∧
    step inp sys =
      step ⟨some 0, inp.now, inp.keyConfirm, inp.keyAbort, inp.focusOk⟩ sys ∧
    (inp.keyAbort = false → (step inp sys).1.st.running = sys.st.running) ∧
    (∀ b : Bool, (Action.startRecording, b) ∉ (step inp sys).2) := by
  refine ⟨rfl, ?_, fun ha => step_running inp sys ha,
    fun b => step_no_start_on_silence inp sys b ?_⟩
  · obtain ⟨frame, now, kc, ka, fo⟩ := inp
    simp only [TickIn.frame] at hfail
    subst hfail
    rfl
  · rw [hfail]
    norm_num [get_audio_level, silence_threshold]

/-- C8 witness: the amended theorem at a concrete failure tick in the
initial state. -/
theorem C8_witness :
    get_audio_level none = 0 ∧
    step ⟨none, 1, false, false, true⟩ (initSys 0) =
      step ⟨some 0, 1, false, false, true⟩ (initSys 0) ∧
    (false = false →
      (step ⟨none, 1, false, false, true⟩ (initSys 0)).1.st.running =
        (initSys 0).st.running) ∧
    (∀ b : Bool,
      (Action.startRecording, b) ∉ (step ⟨none, 1, false, false, true⟩ (initSys 0)).2) :=
  C8_failure_is_silence ⟨none, 1, false, false, true⟩ (initSys 0) rfl

end WarpVoice

namespace WarpVoice

/-- C9 counterexample: with the configuration loadable and the initial focus
succeeding but the audio device unopenable, `run` hits the `except` branch
around `self.audio.open` and just `return`s — the script then ends normally,
so the process exit status is 0, not non-zero, and is indistinguishable from
a clean stop; the tick loop is still never entered. -/
theorem C9_counterexample :
    startup true true false = .audioFailed ∧
    exit_code (startup true true false) = 0 ∧
    loop_entered (startup true true false) = false := by
  decide

/-- C9 (amended): an unreadable/missing button-position configuration aborts
in `load_button_position` via `exit(1)` — before the loop, with non-zero
exit status — but an unopenable audio device merely returns from `run`
before the loop with exit status 0, the same status as a clean stop; only
the configuration failure is distinguishable by exit status. -/
theorem C9_startup_exit_codes :
    (∀ f a : Bool,
      startup false f a = .configError ∧
      exit_code (startup false f a) = 1 ∧
      loop_entered (startup false f a) = false) ∧
    startup true true false = .audioFailed ∧
    exit_code (startup true true false) = 0 ∧
    loop_entered (startup true true false) = false := by
  decide

/-- C10: `run` checks the initial `focus_warp()` before opening the audio
device; if that first focus fails, `run` returns immediately — the audio
stream is never opened, the tick loop is never entered — and the process
exits with status 0, the same exit status as a clean stop (`exit_code
.loopEntered = 0`), an additional startup-failure path not distinguishable
by exit status. -/
theorem C10_initial_focus_failure :
    (∀ a : Bool,
      startup true false a = .focusFailed ∧
      audio_opened (startup true false a) = false ∧
      loop_entered (startup true false a) = false ∧
      exit_code (startup true false a) = 0) ∧
    exit_code .loopEntered = 0 := by
  decide

end WarpVoice
